import Mathlib

/-!
Verification of the Lodestone backend core against its specification.

The development shallowly embeds the relevant Rust source:
* `src/src/traits/t_configurable/manifest.rs` — typed configurable values,
  setting / section manifests and their validation operations;
* `src/src/implementations/minecraft_bedrock/mod.rs` — the backup scheduler
  task and the `restore` wiring that spawns it.

Rust methods taking `&mut self` are embedded in state-passing style: a method
returning `Result<(), Error>` becomes a Lean function returning
`Self × Except Error Unit` (the post-state paired with the result), so that
"the value is unchanged on error" is a provable statement.
-/

namespace Lodestone

/-- Error kinds. `BadRequest` and `NotFound` are the kinds constructed in
manifest.rs. `FatalOnRestore` stands for the kind that `crate::error`'s
conversion assigns to errors propagated out of `restore` (error.rs is not
under src/; the spec's §7 taxonomy calls these "IO" / "Fatal-on-restore").
No claim below depends on which kind a restore failure carries. -/
inductive ErrorKind
  | BadRequest
  | NotFound
  | FatalOnRestore
  deriving DecidableEq

/-- `crate::error::Error`: a kind plus the eyre report, modelled as the
report's message string. -/
structure Error where
  kind : ErrorKind
  source : String
  deriving DecidableEq

/-- `ConfigurableValue` (manifest.rs lines 12-20). `i32` / `u32` payloads are
modelled as `Int` / `Nat` (no arithmetic is performed on them, only order
comparisons, on which the models agree); the `f32` payload is modelled as
`Rat` (no verified claim exercises float rounding, NaN or infinity: the only
float operations in the embedded code are the bound comparisons of
`type_check`, and every claim below either leaves the bounds absent or never
reaches them). -/
inductive ConfigurableValue
  | String (s : String)
  | Integer (n : Int)
  | UnsignedInteger (n : Nat)
  | Float (x : Rat)
  | Boolean (b : Bool)
  | Enum (s : String)
  deriving DecidableEq

/-- `ConfigurableValueType` (manifest.rs lines 22-30). -/
inductive ConfigurableValueType
  | String (regex : Option String)
  | Integer (min max : Option Int)
  | UnsignedInteger (min max : Option Nat)
  | Float (min max : Option Rat)
  | Boolean
  | Enum (options : List String)
  deriving DecidableEq

/-- Model of the external `fancy_regex` library as an oracle: compiling a
pattern either fails (`none`) or yields a matcher; the matcher returns `true`
exactly when Rust's `is_match` returns `Ok(true)` (in `type_check`,
`Err(_)` and `Ok(false)` are indistinguishable: both take the
"Value does not match regex" branch). All theorems below hold for every
oracle. -/
def RegexEngine : Type := String → Option (String → Bool)

/-- A concrete trivial oracle (every pattern fails to compile), used only to
instantiate witnesses. -/
def noRegex : RegexEngine := fun _ => none

/-- `ConfigurableValueType::type_check` (manifest.rs lines 46-145).
`o.any p` is `true` when the optional bound `o` is present and the bound
check `p` fires, mirroring the Rust `if let Some(b) = bound { if cmp ... }`
early returns. -/
def ConfigurableValueType.type_check (re : RegexEngine) :
    ConfigurableValueType → ConfigurableValue → Except Error Unit
  | .String regex, .String value =>
    match regex with
    | some pat =>
      match re pat with
      | some isMatch =>
        if isMatch value then Except.ok ()
        else Except.error ⟨ErrorKind.BadRequest, "Value does not match regex"⟩
      | none => Except.error ⟨ErrorKind.BadRequest, "Invalid regex"⟩
    | none => Except.ok ()
  | .Integer mn mx, .Integer value =>
    if mn.any fun m => decide (value < m) then
      Except.error ⟨ErrorKind.BadRequest, "Value is too small"⟩
    else if mx.any fun m => decide (value > m) then
      Except.error ⟨ErrorKind.BadRequest, "Value is too large"⟩
    else Except.ok ()
  | .UnsignedInteger mn mx, .UnsignedInteger value =>
    if mn.any fun m => decide (value < m) then
      Except.error ⟨ErrorKind.BadRequest, "Value is too small"⟩
    else if mx.any fun m => decide (value > m) then
      Except.error ⟨ErrorKind.BadRequest, "Value is too large"⟩
    else Except.ok ()
  | .Float mn mx, .Float value =>
    if mn.any fun m => decide (value < m) then
      Except.error ⟨ErrorKind.BadRequest, "Value is too small"⟩
    else if mx.any fun m => decide (value > m) then
      Except.error ⟨ErrorKind.BadRequest, "Value is too large"⟩
    else Except.ok ()
  | .Boolean, .Boolean _ => Except.ok ()
  | .Enum options, .Enum value =>
    if options.contains value then Except.ok ()
    else Except.error ⟨ErrorKind.BadRequest, "Value is not in enum"⟩
  | _, _ => Except.error ⟨ErrorKind.BadRequest, "Type mismatch"⟩

/-- `ConfigurableValue::infer_type` (manifest.rs lines 162-180). -/
def ConfigurableValue.infer_type : ConfigurableValue → ConfigurableValueType
  | .String _ => .String none
  | .Integer _ => .Integer none none
  | .UnsignedInteger _ => .UnsignedInteger none none
  | .Float _ => .Float none none
  | .Boolean _ => .Boolean
  | .Enum _ => .Enum []

/-- Variant tag of a `ConfigurableValueType`, for stating cross-variant
properties. -/
def ConfigurableValueType.tag : ConfigurableValueType → Nat
  | .String _ => 0
  | .Integer _ _ => 1
  | .UnsignedInteger _ _ => 2
  | .Float _ _ => 3
  | .Boolean => 4
  | .Enum _ => 5

/-- Variant tag of a `ConfigurableValue`; `tag t = tag v` says the type
descriptor `t` names the same variant as the value `v`. -/
def ConfigurableValue.tag : ConfigurableValue → Nat
  | .String _ => 0
  | .Integer _ => 1
  | .UnsignedInteger _ => 2
  | .Float _ => 3
  | .Boolean _ => 4
  | .Enum _ => 5

/-- `SettingManifest` (manifest.rs lines 248-259). -/
structure SettingManifest where
  setting_id : String
  name : String
  description : String
  value : Option ConfigurableValue
  value_type : ConfigurableValueType
  default_value : Option ConfigurableValue
  is_secret : Bool
  is_required : Bool
  is_mutable : Bool
  deriving DecidableEq

/-- `SettingManifest::get_identifier` (manifest.rs line 265). -/
def SettingManifest.get_identifier (s : SettingManifest) : String :=
  s.setting_id

/-- `SettingManifest::set_value_type_safe` (manifest.rs lines 359-369):
type-check, then commit on success; on failure the error is re-wrapped with
kind `BadRequest` and the manifest is left untouched. -/
def SettingManifest.set_value_type_safe (re : RegexEngine) (s : SettingManifest)
    (value : ConfigurableValue) : SettingManifest × Except Error Unit :=
  match s.value_type.type_check re value with
  | Except.ok _ => ({ s with value := some value }, Except.ok ())
  | Except.error e => (s, Except.error ⟨ErrorKind.BadRequest, e.source⟩)

/-- `SettingManifest::set_value` (manifest.rs lines 371-380). -/
def SettingManifest.set_value (re : RegexEngine) (s : SettingManifest)
    (value : ConfigurableValue) : SettingManifest × Except Error Unit :=
  if s.is_mutable then
    s.set_value_type_safe re value
  else
    (s, Except.error ⟨ErrorKind.BadRequest, "Setting is not mutable"⟩)

/-- `SettingManifest::set_optional_value` (manifest.rs lines 382-399).
Note: the source commits `Some(_)` values without any call to
`type_check`. -/
def SettingManifest.set_optional_value (s : SettingManifest)
    (value : Option ConfigurableValue) : SettingManifest × Except Error Unit :=
  if s.is_mutable then
    if value.isNone && s.is_required then
      (s, Except.error ⟨ErrorKind.BadRequest, "Setting is required"⟩)
    else
      ({ s with value := value }, Except.ok ())
  else
    (s, Except.error ⟨ErrorKind.BadRequest, "Setting is not mutable"⟩)

/-- `std::collections::BTreeMap<String, α>` as used by manifest.rs: an
association list kept strictly sorted by key; iteration order is the list
order, i.e. ascending key order. -/
abbrev BTreeMap (α : Type) : Type := List (String × α)

/-- `BTreeMap::contains_key`. -/
def BTreeMap.contains_key {α : Type} : BTreeMap α → String → Bool
  | [], _ => false
  | (k', _) :: rest, k => if k' = k then true else BTreeMap.contains_key rest k

/-- `BTreeMap::get`. -/
def BTreeMap.get? {α : Type} : BTreeMap α → String → Option α
  | [], _ => none
  | (k', v') :: rest, k => if k' = k then some v' else BTreeMap.get? rest k

/-- `BTreeMap::insert`: sorted insertion; an existing key keeps its place and
has its value replaced. -/
def BTreeMap.insert {α : Type} : BTreeMap α → String → α → BTreeMap α
  | [], k, v => [(k, v)]
  | (k', v') :: rest, k, v =>
    if k < k' then (k, v) :: (k', v') :: rest
    else if k = k' then (k', v) :: rest
    else (k', v') :: BTreeMap.insert rest k v

/-- The `BTreeMap` representation invariant: keys strictly ascending. -/
def BTreeMap.sortedKeys {α : Type} (m : BTreeMap α) : Prop :=
  m.Pairwise fun a b => a.1 < b.1

/-- `SectionManifest` (manifest.rs lines 404-410). -/
structure SectionManifest where
  section_id : String
  name : String
  description : String
  settings : BTreeMap SettingManifest
  deriving DecidableEq

/-- `SectionManifest::new` (manifest.rs lines 413-425). -/
def SectionManifest.new (section_id name description : String)
    (settings : BTreeMap SettingManifest) : SectionManifest :=
  { section_id := section_id, name := name, description := description,
    settings := settings }

/-- `SectionManifest::get_setting` (manifest.rs lines 427-429). -/
def SectionManifest.get_setting (s : SectionManifest) (setting_id : String) :
    Option SettingManifest :=
  s.settings.get? setting_id

/-- `SectionManifest::add_setting` (manifest.rs lines 431-442). -/
def SectionManifest.add_setting (s : SectionManifest) (setting : SettingManifest) :
    SectionManifest × Except Error Unit :=
  if s.settings.contains_key setting.get_identifier then
    (s, Except.error ⟨ErrorKind.BadRequest, "Setting already exists"⟩)
  else
    ({ s with settings := s.settings.insert setting.get_identifier setting },
      Except.ok ())

/-- `SectionManifest::set_setting` (manifest.rs lines 444-455). -/
def SectionManifest.set_setting (s : SectionManifest) (setting : SettingManifest) :
    SectionManifest × Except Error Unit :=
  if s.settings.contains_key setting.get_identifier then
    ({ s with settings := s.settings.insert setting.get_identifier setting },
      Except.ok ())
  else
    (s, Except.error ⟨ErrorKind.BadRequest, "Setting does not exist"⟩)

/-- A sequence of `add_setting` calls, each applied to the post-state of the
previous one (failed calls leave the section unchanged). -/
def SectionManifest.add_all (s : SectionManifest) (l : List SettingManifest) :
    SectionManifest :=
  l.foldl (fun acc m => (acc.add_setting m).1) s

/-- Modelled from the spec: the instance lifecycle state enum
(`crate::traits::t_server::State`, whose declaring file is not under src/);
§4.4 names the states `Stopped`, `Starting`, `Running`, `Stopping`. Only
`Running` and `Stopped` are inspected by the embedded code. -/
inductive State
  | Stopped
  | Starting
  | Running
  | Stopping
  deriving DecidableEq

/-- `BackupInstruction` (minecraft_bedrock/mod.rs lines 120-126). The period
is `Option<u32>`, modelled as `Option Nat`. -/
inductive BackupInstruction
  | SetPeriod (period : Option Nat)
  | BackupNow
  | Pause
  | Resume
  deriving DecidableEq

/-- The mutable state of the backup task spawned by `restore`
(minecraft_bedrock/mod.rs lines 498-575): the active period and the tick
counter (lines 530-531), whether the task is inside the `Pause` sub-loop
(lines 546-552), and — as observable history — how many times `backup_now`
has run. -/
structure BackupTaskState where
  backup_period : Option Nat
  counter : Nat
  paused : Bool
  backups : Nat
  deriving DecidableEq

/-- One event consumed by the backup task's event loop: either the next
queued instruction, or the one-second timer tick firing, carrying the
instance state the tick handler observes through the task's state handle
(`*state.lock().await`, mod.rs line 562). -/
inductive BackupEvent
  | instruction (i : BackupInstruction)
  | tick (observed : State)
  deriving DecidableEq

/-- One iteration of the backup task's loop (minecraft_bedrock/mod.rs lines
532-573). While inside the `Pause` sub-loop the task only awaits
`backup_rx.recv()`: every instruction other than `Resume` is discarded and
the timer is never polled, so a tick has no effect. Otherwise:
`SetPeriod` replaces the period (counter untouched, no backup);
`BackupNow` backs up unconditionally; `Pause` enters the sub-loop;
`Resume` is a no-op (`continue`); a tick, when a period is configured and
the observed state is `Running`, increments the counter and, once it
reaches the period, resets it to zero and backs up. -/
def backupStep (s : BackupTaskState) (e : BackupEvent) : BackupTaskState :=
  if s.paused then
    match e with
    | .instruction .Resume => { s with paused := false }
    | .instruction _ => s
    | .tick _ => s
  else
    match e with
    | .instruction (.SetPeriod p) => { s with backup_period := p }
    | .instruction .BackupNow => { s with backups := s.backups + 1 }
    | .instruction .Pause => { s with paused := true }
    | .instruction .Resume => s
    | .tick observed =>
      match s.backup_period with
      | some period =>
        if observed = State.Running then
          if s.counter + 1 ≥ period then
            { s with counter := 0, backups := s.backups + 1 }
          else
            { s with counter := s.counter + 1 }
        else s
      | none => s

/-- The backup task consuming a sequence of events in order. -/
def backupRun (s : BackupTaskState) (es : List BackupEvent) : BackupTaskState :=
  es.foldl backupStep s

/-- `RestoreConfig` (minecraft_bedrock/mod.rs lines 75-85). -/
structure RestoreConfig where
  name : String
  version : String
  description : String
  port : Nat
  auto_start : Bool
  restart_on_crash : Bool
  backup_period : Option Nat
  has_started : Bool
  deriving DecidableEq

/-- Model of `serde_json::from_reader` for `RestoreConfig` as an oracle:
a file's text either deserializes to a config or fails. -/
def JsonDecoder : Type := String → Option RestoreConfig

/-- The state wiring `restore` builds (minecraft_bedrock/mod.rs lines
493-606): `restore` creates one state cell (`Arc::new(Mutex::new(
State::Stopped))`, line 493) and hands a clone of it to the spawned backup
task, whose tick handler reads it (line 562); the returned instance's
`state` field is a second, freshly created cell (line 581). The two cells
are distinct: lifecycle transitions on the returned instance mutate
`instance_state` and leave `backup_task_state` untouched. -/
structure BedrockRestoreWiring where
  backup_task_state : State
  instance_state : State
  scheduler : BackupTaskState
  deriving DecidableEq

/-- The wiring as `restore` leaves it: both cells `Stopped`, the task's
period taken from the restored config, counter zero, not paused
(mod.rs lines 493, 530-531, 581). -/
def restoreWiring (backup_period : Option Nat) : BedrockRestoreWiring :=
  { backup_task_state := State.Stopped
    instance_state := State.Stopped
    scheduler :=
      { backup_period := backup_period, counter := 0, paused := false,
        backups := 0 } }

/-- A lifecycle transition on the restored instance writes the instance's
own state cell; the backup task's cell is a different `Arc` and is not
written (mod.rs lines 581 vs 493). -/
def setInstanceState (w : BedrockRestoreWiring) (st : State) :
    BedrockRestoreWiring :=
  { w with instance_state := st }

/-- One one-second tick of the spawned backup task: the tick handler reads
the task's own state cell (mod.rs line 562). -/
def wiringTick (w : BedrockRestoreWiring) : BedrockRestoreWiring :=
  { w with scheduler := backupStep w.scheduler (.tick w.backup_task_state) }

/-- `MinecraftBedrockInstance::restore` (minecraft_bedrock/mod.rs lines
465-612), up to instance production. Inputs are the config file's content
(`none` when the file is missing or unopenable), the serde oracle, and the
outcome of the trailing `read_properties` call (filesystem, modelled as an
oracle). Opening + deserializing happens first; either failure propagates
through `?` and no instance is produced. On success the backup task is
spawned with the wiring above and the instance (its persisted config plus
the wiring) is returned. -/
def MinecraftBedrockInstance.restore (config_file : Option String)
    (decode : JsonDecoder) (read_properties : Except Error Unit) :
    Except Error (RestoreConfig × BedrockRestoreWiring) :=
  match config_file with
  | none =>
    Except.error ⟨ErrorKind.FatalOnRestore, "Failed to open config file"⟩
  | some text =>
    match decode text with
    | none =>
      Except.error ⟨ErrorKind.FatalOnRestore,
        "Failed to deserialize config from string. Was the config file modified manually?"⟩
    | some restore_config =>
      match read_properties with
      | Except.error e => Except.error e
      | Except.ok _ =>
        Except.ok (restore_config, restoreWiring restore_config.backup_period)

/-- A minimal concrete setting used by witnesses and counterexamples. -/
def mkSetting (id : String) : SettingManifest :=
  { setting_id := id, name := id, description := "",
    value := none, value_type := ConfigurableValueType.Boolean,
    default_value := none, is_secret := false, is_required := false,
    is_mutable := true }

/-- A concrete mutable, integer-typed setting (for claim C1). -/
def c1setting : SettingManifest :=
  { setting_id := "port", name := "Port", description := "",
    value := some (ConfigurableValue.Integer 25565),
    value_type := ConfigurableValueType.Integer none none,
    default_value := none, is_secret := false, is_required := false,
    is_mutable := true }

/-- A concrete immutable setting (for claim C8's witness). -/
def frozenSetting : SettingManifest :=
  { setting_id := "version", name := "Version", description := "",
    value := some (ConfigurableValue.String "1.20"),
    value_type := ConfigurableValueType.String none,
    default_value := none, is_secret := false, is_required := true,
    is_mutable := false }

/-- A concrete restored config with backup period 3 (for claim C2). -/
def c2config : RestoreConfig :=
  { name := "bedrock", version := "1.20", description := "",
    port := 19132, auto_start := false, restart_on_crash := false,
    backup_period := some 3, has_started := false }

/-- A serde oracle that successfully decodes any text to `c2config`. -/
def c2decode : JsonDecoder := fun _ => some c2config

/-! ### Helper lemmas about the `BTreeMap` model -/

theorem BTreeMap.get?_insert_self {α : Type} (m : BTreeMap α) (k : String) (v : α) :
    (m.insert k v).get? k = some v := by
  induction m with
  | nil => simp [BTreeMap.insert, BTreeMap.get?]
  | cons hd tl ih =>
    obtain ⟨k', v'⟩ := hd
    by_cases h1 : k < k'
    · simp [BTreeMap.insert, h1, BTreeMap.get?]
    · by_cases h2 : k = k'
      · subst h2
        simp [BTreeMap.insert, h1, BTreeMap.get?]
      · have h2' : k' ≠ k := fun h => h2 h.symm
        simp [BTreeMap.insert, h1, h2, BTreeMap.get?, h2', ih]

theorem BTreeMap.mem_insert {α : Type} (m : BTreeMap α) (k : String) (v : α)
    (x : String × α) (hx : x ∈ m.insert k v) : x ∈ m ∨ x = (k, v) := by
  induction m with
  | nil =>
    exact Or.inr (List.mem_singleton.mp hx)
  | cons hd tl ih =>
    obtain ⟨k', v'⟩ := hd
    by_cases h1 : k < k'
    · rw [show BTreeMap.insert ((k', v') :: tl) k v = (k, v) :: (k', v') :: tl by
        simp [BTreeMap.insert, h1]] at hx
      rcases List.mem_cons.mp hx with h | h
      · exact Or.inr h
      · exact Or.inl h
    · by_cases h2 : k = k'
      · rw [show BTreeMap.insert ((k', v') :: tl) k v = (k', v) :: tl by
          simp [BTreeMap.insert, h1, h2]] at hx
        rcases List.mem_cons.mp hx with h | h
        · subst h2
          exact Or.inr h
        · exact Or.inl (List.mem_cons_of_mem _ h)
      · rw [show BTreeMap.insert ((k', v') :: tl) k v =
            (k', v') :: BTreeMap.insert tl k v by
          simp [BTreeMap.insert, h1, h2]] at hx
        rcases List.mem_cons.mp hx with h | h
        · exact Or.inl (by rw [h]; exact List.mem_cons_self _ _)
        · rcases ih h with h' | h'
          · exact Or.inl (List.mem_cons_of_mem _ h')
          · exact Or.inr h'

theorem BTreeMap.contains_key_eq_false_of_lt {α : Type} (m : BTreeMap α) (k : String)
    (h : ∀ p ∈ m, p.1 < k) : m.contains_key k = false := by
  induction m with
  | nil => rfl
  | cons hd tl ih =>
    obtain ⟨k', v'⟩ := hd
    have hne : k' ≠ k := ne_of_lt (h (k', v') (List.mem_cons_self _ _))
    simp only [BTreeMap.contains_key, if_neg hne]
    exact ih fun p hp => h p (List.mem_cons_of_mem _ hp)

theorem BTreeMap.insert_append {α : Type} (m : BTreeMap α) (k : String) (v : α)
    (h : ∀ p ∈ m, p.1 < k) : m.insert k v = m ++ [(k, v)] := by
  induction m with
  | nil => rfl
  | cons hd tl ih =>
    obtain ⟨k', v'⟩ := hd
    have hk' : k' < k := h (k', v') (List.mem_cons_self _ _)
    have h1 : ¬ k < k' := lt_asymm hk'
    have h2 : k ≠ k' := ne_of_gt hk'
    simp [BTreeMap.insert, h1, h2,
      ih fun p hp => h p (List.mem_cons_of_mem _ hp)]

theorem BTreeMap.sortedKeys_insert {α : Type} (m : BTreeMap α) (k : String) (v : α)
    (h : m.sortedKeys) : (m.insert k v).sortedKeys := by
  induction m with
  | nil => simp [BTreeMap.insert, BTreeMap.sortedKeys]
  | cons hd tl ih =>
    obtain ⟨k', v'⟩ := hd
    unfold BTreeMap.sortedKeys at h ⊢
    rw [List.pairwise_cons] at h
    obtain ⟨hlt, htl⟩ := h
    by_cases h1 : k < k'
    · simp only [BTreeMap.insert, if_pos h1]
      refine List.Pairwise.cons ?_ (List.Pairwise.cons hlt htl)
      intro b hb
      rcases List.mem_cons.mp hb with hb | hb
      · subst hb; exact h1
      · exact lt_trans h1 (hlt b hb)
    · by_cases h2 : k = k'
      · subst h2
        simp only [BTreeMap.insert, if_neg h1, if_pos rfl]
        exact List.Pairwise.cons hlt htl
      · have hk : k' < k := by
          rcases lt_trichotomy k k' with hlt' | heq | hgt
          · exact absurd hlt' h1
          · exact absurd heq h2
          · exact hgt
        simp only [BTreeMap.insert, if_neg h1, if_neg h2]
        refine List.Pairwise.cons ?_ (ih htl)
        intro b hb
        rcases BTreeMap.mem_insert tl k v b hb with hb' | hb'
        · exact hlt b hb'
        · subst hb'; exact hk

theorem SectionManifest.add_setting_sorted (s : SectionManifest) (m : SettingManifest)
    (h : s.settings.sortedKeys) : ((s.add_setting m).1).settings.sortedKeys := by
  unfold SectionManifest.add_setting
  by_cases hc : s.settings.contains_key m.get_identifier
  · simp [hc, h]
  · simp only [Bool.not_eq_true] at hc
    simp [hc, BTreeMap.sortedKeys_insert _ _ _ h]

theorem SectionManifest.add_all_sorted (l : List SettingManifest) (s : SectionManifest)
    (h : s.settings.sortedKeys) : ((s.add_all l).settings).sortedKeys := by
  induction l generalizing s with
  | nil => exact h
  | cons m rest ih =>
    exact ih ((s.add_setting m).1) (SectionManifest.add_setting_sorted s m h)

theorem SectionManifest.add_all_in_order (l : List SettingManifest) (s : SectionManifest)
    (hs : ∀ p ∈ s.settings, ∀ m ∈ l, p.1 < m.setting_id)
    (hl : l.Pairwise fun a b => a.setting_id < b.setting_id) :
    (s.add_all l).settings = s.settings ++ (l.map fun m => (m.setting_id, m)) := by
  induction l generalizing s with
  | nil => simp [SectionManifest.add_all]
  | cons m rest ih =>
    rw [List.pairwise_cons] at hl
    obtain ⟨hm, hrest⟩ := hl
    have hlow : ∀ p ∈ s.settings, p.1 < m.setting_id :=
      fun p hp => hs p hp m (List.mem_cons_self _ _)
    have hcontains : s.settings.contains_key m.setting_id = false :=
      BTreeMap.contains_key_eq_false_of_lt _ _ hlow
    have hstep : (s.add_setting m).1 =
        { s with settings := s.settings.insert m.setting_id m } := by
      simp [SectionManifest.add_setting, SettingManifest.get_identifier, hcontains]
    have hlater : ∀ p ∈ ({ s with settings := s.settings.insert m.setting_id m } :
        SectionManifest).settings, ∀ m' ∈ rest, p.1 < m'.setting_id := by
      intro p hp m' hm'
      rcases BTreeMap.mem_insert _ _ _ p hp with hp' | hp'
      · exact hs p hp' m' (List.mem_cons_of_mem _ hm')
      · rw [hp']
        exact hm m' hm'
    show (((s.add_setting m).1).add_all rest).settings = _
    rw [hstep, ih _ hlater hrest]
    have happ := BTreeMap.insert_append s.settings m.setting_id m hlow
    simp [happ]

/-! ### Helper lemmas about the backup task -/

theorem backupStep_paused_discard (s : BackupTaskState) (i : BackupInstruction)
    (hp : s.paused = true) (hi : i ≠ BackupInstruction.Resume) :
    backupStep s (BackupEvent.instruction i) = s := by
  cases i with
  | Resume => exact absurd rfl hi
  | SetPeriod p => simp [backupStep, hp]
  | BackupNow => simp [backupStep, hp]
  | Pause => simp [backupStep, hp]

theorem backupRun_paused_discard (l : List BackupInstruction) (s : BackupTaskState)
    (hp : s.paused = true) (hl : ∀ i ∈ l, i ≠ BackupInstruction.Resume) :
    backupRun s (l.map BackupEvent.instruction) = s := by
  induction l generalizing s with
  | nil => rfl
  | cons i rest ih =>
    have h1 : backupStep s (BackupEvent.instruction i) = s :=
      backupStep_paused_discard s i hp (hl i (List.mem_cons_self _ _))
    show backupRun (backupStep s (BackupEvent.instruction i))
      (rest.map BackupEvent.instruction) = s
    rw [h1]
    exact ih s hp fun j hj => hl j (List.mem_cons_of_mem _ hj)

theorem backupRun_pause_segment (s : BackupTaskState) (l : List BackupInstruction)
    (rest : List BackupEvent) (hp : s.paused = false)
    (hl : ∀ i ∈ l, i ≠ BackupInstruction.Resume) :
    backupRun s (BackupEvent.instruction BackupInstruction.Pause ::
        (l.map BackupEvent.instruction ++
          (BackupEvent.instruction BackupInstruction.Resume :: rest))) =
      backupRun s rest := by
  have hpause : backupStep s (BackupEvent.instruction BackupInstruction.Pause) =
      { s with paused := true } := by
    simp [backupStep, hp]
  have hmid : backupRun { s with paused := true } (l.map BackupEvent.instruction) =
      { s with paused := true } :=
    backupRun_paused_discard l _ rfl hl
  have hresume : backupStep { s with paused := true }
      (BackupEvent.instruction BackupInstruction.Resume) =
      { s with paused := false } := by
    simp [backupStep]
  have hback : ({ s with paused := false } : BackupTaskState) = s := by
    cases s
    simp_all
  show backupRun (backupStep s (BackupEvent.instruction BackupInstruction.Pause))
      (l.map BackupEvent.instruction ++
        (BackupEvent.instruction BackupInstruction.Resume :: rest)) = backupRun s rest
  rw [hpause]
  unfold backupRun
  rw [List.foldl_append]
  have hmid' : List.foldl backupStep { s with paused := true }
      (l.map BackupEvent.instruction) = { s with paused := true } := hmid
  rw [hmid']
  show backupRun (backupStep { s with paused := true }
      (BackupEvent.instruction BackupInstruction.Resume)) rest = backupRun s rest
  rw [hresume, hback]

/-! ### Small helper facts -/

@[simp]
theorem except_isOk_ok {ε α : Type} (a : α) :
    (Except.ok a : Except ε α).isOk = true := rfl

@[simp]
theorem except_isOk_error {ε α : Type} (e : ε) :
    (Except.error e : Except ε α).isOk = false := rfl

theorem str_a_lt_b : ("a" : String) < "b" :=
  String.lt_iff_toList_lt.mpr (by decide)

theorem chars_a_lt_b : (['a'] : List Char) < ['b'] := by decide

/-! ### Claims -/

/-- Claim C1, counterexample: `c1setting` is mutable and integer-typed; the
value `Boolean true` fails its type check, yet `set_optional_value` returns
`Ok` and commits it. This refutes "set_optional_value(Some(v)) type-checks v
against value_type before committing". -/
theorem set_optional_value_commits_ill_typed_value :
    (c1setting.value_type.type_check noRegex (ConfigurableValue.Boolean true)).isOk
        = false ∧
    (c1setting.set_optional_value (some (ConfigurableValue.Boolean true))).2.isOk
        = true ∧
    (c1setting.set_optional_value (some (ConfigurableValue.Boolean true))).1.value
        = some (ConfigurableValue.Boolean true) :=
  ⟨rfl, rfl, rfl⟩

/-- Claim C1 (amended): for every SettingManifest with `is_mutable = true`,
`set_optional_value(Some(v))` performs no type check at all — it
unconditionally succeeds and sets `value` to `Some(v)`, even when `v` fails
`value_type`'s type check (manifest.rs lines 382-399 never call
`type_check`). -/
theorem set_optional_value_no_type_check (s : SettingManifest)
    (v : ConfigurableValue) (h : s.is_mutable = true) :
    s.set_optional_value (some v) = ({ s with value := some v }, Except.ok ()) := by
  simp [SettingManifest.set_optional_value, h]

/-- Witness for the amended claim C1 at a concrete mutable setting and a
value of the wrong variant. -/
theorem set_optional_value_no_type_check_witness :
    c1setting.set_optional_value (some (ConfigurableValue.String "oops")) =
      ({ c1setting with value := some (ConfigurableValue.String "oops") },
        Except.ok ()) :=
  set_optional_value_no_type_check c1setting (ConfigurableValue.String "oops") rfl

/-- Claim C2 (code bug): a restored Bedrock instance with backup period 3,
whose instance state is set to `Running` and which then receives three
one-second ticks with no instruction, performs zero backups and its counter
stays 0 — not the "exactly one backup" the claim requires. The backup task's
tick handler reads the state cell created at mod.rs line 493, while the
returned instance's `state` field is the distinct cell created at line 581,
so the task observes `Stopped` forever. The last conjunct shows the same
tick logic does perform exactly one backup and reset its counter when it
observes `Running`, confirming the disconnected state cell (not the tick
logic) as the cause. -/
theorem restored_instance_periodic_backup_never_fires :
    (MinecraftBedrockInstance.restore (some "cfg") c2decode (Except.ok ())).isOk
        = true ∧
    MinecraftBedrockInstance.restore (some "cfg") c2decode (Except.ok ()) =
      Except.ok (c2config, restoreWiring (some 3)) ∧
    (wiringTick (wiringTick (wiringTick
        (setInstanceState (restoreWiring (some 3)) State.Running)))).scheduler.backups
        = 0 ∧
    (wiringTick (wiringTick (wiringTick
        (setInstanceState (restoreWiring (some 3)) State.Running)))).scheduler.counter
        = 0 ∧
    (backupRun ⟨some 3, 0, false, 0⟩
        [BackupEvent.tick State.Running, BackupEvent.tick State.Running,
          BackupEvent.tick State.Running]).backups = 1 ∧
    (backupRun ⟨some 3, 0, false, 0⟩
        [BackupEvent.tick State.Running, BackupEvent.tick State.Running,
          BackupEvent.tick State.Running]).counter = 0 :=
  ⟨rfl, rfl, rfl, rfl, rfl, rfl⟩

/-- Claim C3: once the backup task receives `Pause`, every instruction other
than `Resume` is consumed and discarded with no effect — no backup is
performed, the active period and counter are untouched — until a `Resume`
arrives, after which processing continues exactly as if the whole paused
segment had never been received (first conjunct), and the pause segment by
itself returns the task to its pre-`Pause` state (second conjunct). -/
theorem pause_discards_instructions_until_resume (s : BackupTaskState)
    (l : List BackupInstruction) (rest : List BackupEvent)
    (hp : s.paused = false)
    (hl : ∀ i ∈ l, i ≠ BackupInstruction.Resume) :
    backupRun s (BackupEvent.instruction BackupInstruction.Pause ::
        (l.map BackupEvent.instruction ++
          (BackupEvent.instruction BackupInstruction.Resume :: rest))) =
      backupRun s rest ∧
    backupRun s (BackupEvent.instruction BackupInstruction.Pause ::
        (l.map BackupEvent.instruction ++
          [BackupEvent.instruction BackupInstruction.Resume])) = s := by
  refine ⟨backupRun_pause_segment s l rest hp hl, ?_⟩
  have h := backupRun_pause_segment s l [] hp hl
  simpa [backupRun] using h

/-- Witness for claim C3: the spec's concrete scenario `Pause`,
`SetPeriod(5)`, `BackupNow`, `Resume` leaves the task exactly in its initial
state — period still 3, counter 0, zero backups. -/
theorem pause_discards_instructions_until_resume_witness :
    backupRun ⟨some 3, 0, false, 0⟩
        (BackupEvent.instruction BackupInstruction.Pause ::
          ([BackupInstruction.SetPeriod (some 5),
              BackupInstruction.BackupNow].map BackupEvent.instruction ++
            [BackupEvent.instruction BackupInstruction.Resume])) =
      (⟨some 3, 0, false, 0⟩ : BackupTaskState) :=
  (pause_discards_instructions_until_resume ⟨some 3, 0, false, 0⟩
    [BackupInstruction.SetPeriod (some 5), BackupInstruction.BackupNow] [] rfl
    (by decide)).2

/-- Claim C4, counterexample: for `v = Enum "survival"`, `infer_type v` is
`Enum {options: []}` and its `type_check` rejects `v` itself ("Value is not
in enum"), refuting "infer_type(v).type_check(v) succeeds for every v". -/
theorem infer_type_rejects_enum_value :
    ((ConfigurableValue.Enum "survival").infer_type.type_check noRegex
      (ConfigurableValue.Enum "survival")).isOk = false :=
  rfl

/-- Claim C4 (amended): `infer_type(v).type_check(v)` succeeds for every `v`
that is not an `Enum`; for `Enum` values the inferred descriptor has an
empty options list, which `type_check` rejects. -/
theorem infer_type_accepts_non_enum (re : RegexEngine) (v : ConfigurableValue)
    (h : ∀ s, v ≠ ConfigurableValue.Enum s) :
    (v.infer_type.type_check re v).isOk = true := by
  cases v with
  | String s => rfl
  | Integer n => rfl
  | UnsignedInteger n => rfl
  | Float x => rfl
  | Boolean b => rfl
  | Enum s => exact absurd rfl (h s)

/-- Witness for the amended claim C4 at a concrete non-enum value. -/
theorem infer_type_accepts_non_enum_witness :
    ((ConfigurableValue.Boolean true).infer_type.type_check noRegex
      (ConfigurableValue.Boolean true)).isOk = true :=
  infer_type_accepts_non_enum noRegex (ConfigurableValue.Boolean true)
    (fun _ h => ConfigurableValue.noConfusion h)

/-- Claim C5, counterexample: adding settings with ids "b" then "a" to an
empty section yields iteration order ["a", "b"], not the insertion order
["b", "a"] — the `BTreeMap` iterates by key order. -/
theorem section_insertion_order_not_preserved :
    ((((SectionManifest.new "s" "n" "d" []).add_setting (mkSetting "b")).1.add_setting
        (mkSetting "a")).1.settings.map Prod.fst = ["a", "b"]) ∧
    (["a", "b"] ≠ (["b", "a"] : List String)) := by
  constructor
  · simp [SectionManifest.new, SectionManifest.add_setting,
      SettingManifest.get_identifier, BTreeMap.contains_key, BTreeMap.insert,
      mkSetting, str_a_lt_b, chars_a_lt_b]
  · simp

/-- Claim C5 (amended): iterating a section's settings yields them in
ascending key order, not insertion order: any sequence of `add_setting`
calls preserves the sorted-keys iteration invariant (first conjunct), and
insertion order is preserved exactly when the settings are added in
ascending `setting_id` order — then every call succeeds and iteration
equals the insertion sequence (second conjunct). -/
theorem section_iteration_is_key_order :
    (∀ (s : SectionManifest) (l : List SettingManifest),
      s.settings.sortedKeys → ((s.add_all l).settings).sortedKeys) ∧
    (∀ (sid nm ds : String) (l : List SettingManifest),
      l.Pairwise (fun a b => a.setting_id < b.setting_id) →
      ((SectionManifest.new sid nm ds []).add_all l).settings =
        l.map fun m => (m.setting_id, m)) := by
  constructor
  · intro s l h
    exact SectionManifest.add_all_sorted l s h
  · intro sid nm ds l hl
    have h := SectionManifest.add_all_in_order l (SectionManifest.new sid nm ds [])
      (by intro p hp; simp [SectionManifest.new] at hp) hl
    simpa [SectionManifest.new] using h

/-- Witness for the amended claim C5: adding "a" then "b" in key order to an
empty section yields exactly the insertion sequence. -/
theorem section_iteration_is_key_order_witness :
    ((SectionManifest.new "s" "n" "d" []).add_all
        [mkSetting "a", mkSetting "b"]).settings =
      [("a", mkSetting "a"), ("b", mkSetting "b")] := by
  rw [section_iteration_is_key_order.2 "s" "n" "d" [mkSetting "a", mkSetting "b"]
    (by simp [List.pairwise_cons, mkSetting, str_a_lt_b, chars_a_lt_b])]
  rfl

/-- Claim C6: `add_setting` fails exactly when the setting id is already
present and `set_setting` fails exactly when it is absent; each failing call
leaves the section unchanged, and each successful call leaves the new
setting stored under its id. -/
theorem add_setting_set_setting_spec (s : SectionManifest) (m : SettingManifest) :
    ((s.add_setting m).2.isOk = false ↔
      s.settings.contains_key m.setting_id = true) ∧
    ((s.set_setting m).2.isOk = false ↔
      s.settings.contains_key m.setting_id = false) ∧
    ((s.add_setting m).2.isOk = false → (s.add_setting m).1 = s) ∧
    ((s.set_setting m).2.isOk = false → (s.set_setting m).1 = s) ∧
    ((s.add_setting m).2.isOk = true →
      ((s.add_setting m).1).settings.get? m.setting_id = some m) ∧
    ((s.set_setting m).2.isOk = true →
      ((s.set_setting m).1).settings.get? m.setting_id = some m) := by
  rcases hc : s.settings.contains_key m.setting_id with _ | _
  · refine ⟨?_, ?_, ?_, ?_, ?_, ?_⟩ <;>
      simp [SectionManifest.add_setting, SectionManifest.set_setting,
        SettingManifest.get_identifier, hc, BTreeMap.get?_insert_self]
  · refine ⟨?_, ?_, ?_, ?_, ?_, ?_⟩ <;>
      simp [SectionManifest.add_setting, SectionManifest.set_setting,
        SettingManifest.get_identifier, hc, BTreeMap.get?_insert_self]

/-- Witness for claim C6: adding a setting to an empty section succeeds and
stores it under its id. -/
theorem add_setting_set_setting_spec_witness :
    (((SectionManifest.new "s" "n" "d" []).add_setting
        (mkSetting "a")).1).settings.get? "a" = some (mkSetting "a") :=
  (add_setting_set_setting_spec (SectionManifest.new "s" "n" "d" [])
    (mkSetting "a")).2.2.2.2.1 rfl

/-- Claim C7: whenever the variant tags of a type descriptor and a value
differ, `type_check` fails with the `BadRequest` "Type mismatch" error
(manifest.rs catch-all arm, lines 140-143); no cross-variant pair passes. -/
theorem type_check_cross_variant_fails (re : RegexEngine)
    (t : ConfigurableValueType) (v : ConfigurableValue)
    (h : t.tag ≠ v.tag) :
    t.type_check re v = Except.error ⟨ErrorKind.BadRequest, "Type mismatch"⟩ := by
  cases t <;> cases v <;> first
    | rfl
    | exact absurd rfl h

/-- Witness for claim C7: an Integer type against a String value. -/
theorem type_check_cross_variant_fails_witness :
    ConfigurableValueType.type_check noRegex
      (ConfigurableValueType.Integer none none) (ConfigurableValue.String "x") =
      Except.error ⟨ErrorKind.BadRequest, "Type mismatch"⟩ :=
  type_check_cross_variant_fails noRegex (ConfigurableValueType.Integer none none)
    (ConfigurableValue.String "x") (by decide)

/-- Claim C8: `set_value` on an immutable setting always fails, and more
generally whenever `set_value` returns an error (not mutable, or failed type
check) the stored value is unchanged. -/
theorem set_value_error_leaves_value_unchanged (re : RegexEngine)
    (s : SettingManifest) (v : ConfigurableValue)
    (h : s.is_mutable = false ∨ (s.set_value re v).2.isOk = false) :
    (s.set_value re v).2.isOk = false ∧ (s.set_value re v).1.value = s.value := by
  by_cases hm : s.is_mutable
  · have hs : s.set_value re v = s.set_value_type_safe re v := by
      simp [SettingManifest.set_value, hm]
    cases htc : s.value_type.type_check re v with
    | ok u =>
      have hok : (s.set_value re v).2 = Except.ok () := by
        rw [hs]
        unfold SettingManifest.set_value_type_safe
        rw [htc]
      rcases h with h | h
      · rw [h] at hm
        exact Bool.noConfusion hm
      · rw [hok] at h
        exact Bool.noConfusion h
    | error e =>
      have herr : s.set_value re v =
          (s, Except.error ⟨ErrorKind.BadRequest, e.source⟩) := by
        rw [hs]
        unfold SettingManifest.set_value_type_safe
        rw [htc]
      rw [herr]
      exact ⟨rfl, rfl⟩
  · have hm' : s.is_mutable = false := by simpa using hm
    simp [SettingManifest.set_value, hm']

/-- Witness for claim C8 at a concrete immutable setting. -/
theorem set_value_error_leaves_value_unchanged_witness :
    (frozenSetting.set_value noRegex (ConfigurableValue.String "1.21")).2.isOk
        = false ∧
    (frozenSetting.set_value noRegex (ConfigurableValue.String "1.21")).1.value
        = frozenSetting.value :=
  set_value_error_leaves_value_unchanged noRegex frozenSetting
    (ConfigurableValue.String "1.21") (Or.inl rfl)

/-- Claim C9: `set_optional_value(None)` on a required setting always fails
(either "Setting is not mutable" or "Setting is required") and leaves the
stored value unchanged. -/
theorem set_optional_value_none_required_fails (s : SettingManifest)
    (h : s.is_required = true) :
    (s.set_optional_value none).2.isOk = false ∧
    (s.set_optional_value none).1.value = s.value := by
  by_cases hm : s.is_mutable
  · simp [SettingManifest.set_optional_value, hm, h]
  · have hm' : s.is_mutable = false := by simpa using hm
    simp [SettingManifest.set_optional_value, hm']

/-- Witness for claim C9 at a concrete required setting. -/
theorem set_optional_value_none_required_fails_witness :
    (frozenSetting.set_optional_value none).2.isOk = false ∧
    (frozenSetting.set_optional_value none).1.value = frozenSetting.value :=
  set_optional_value_none_required_fails frozenSetting rfl

/-- Claim C10: when the persisted config file is missing, or present but not
deserializable into a `RestoreConfig`, `restore` returns an error and no
instance value is produced — regardless of the serde oracle and of whatever
the later `read_properties` step would have done. -/
theorem restore_missing_or_corrupt_config_fails (config_file : Option String)
    (decode : JsonDecoder) (rp : Except Error Unit)
    (h : config_file = none ∨
      ∃ text, config_file = some text ∧ decode text = none) :
    (MinecraftBedrockInstance.restore config_file decode rp).isOk = false := by
  rcases h with h | ⟨text, hfile, hdec⟩
  · subst h
    rfl
  · subst hfile
    simp [MinecraftBedrockInstance.restore, hdec]

/-- Witness for claim C10: a byte-corrupted config file (the oracle fails to
deserialize it). -/
theorem restore_missing_or_corrupt_config_fails_witness :
    (MinecraftBedrockInstance.restore (some "corrupted bytes") (fun _ => none)
      (Except.ok ())).isOk = false :=
  restore_missing_or_corrupt_config_fails (some "corrupted bytes") (fun _ => none)
    (Except.ok ()) (Or.inr ⟨"corrupted bytes", rfl, rfl⟩)

end Lodestone
